import Mathlib

/-!
Verification development for the SiteShare local-network website sharing
tool (share_website.py).  The definitions below are a shallow embedding of
the request-routing core: the static file handler (SiteShareHandler plus
the inherited stdlib SimpleHTTPRequestHandler behaviour), the PHP proxy
handler (PHPProxyHandler), the backend detector (find_php_server), the
server-mode selection in run_server, and the bind-error handling loop.

String manipulation is modelled on lists of characters with structurally
recursive functions, so that every definition evaluates by kernel
reduction on concrete inputs.
-/

namespace SiteShare

/-! ## Basic string utilities (models of the Python string operations) -/

/-- Model of the Python list(str.split(sep)) for a single character
separator: splits a character list at every occurrence of the separator,
keeping empty components, exactly like the CPython str.split with an
explicit separator. -/
def splitOnCharAux (sep : Char) : List Char → List Char → List (List Char)
  | [], acc => [acc.reverse]
  | c :: cs, acc =>
    if c = sep then acc.reverse :: splitOnCharAux sep cs []
    else splitOnCharAux sep cs (c :: acc)

/-- Split a character list on a separator character, Python str.split
semantics (empty components are kept). -/
def splitOnChar (sep : Char) (l : List Char) : List (List Char) :=
  splitOnCharAux sep l []

/-- Model of the Python expression s.split(c, 1)[0]: everything before the
first occurrence of the character. -/
def dropAfter (stop : Char) (l : List Char) : List Char :=
  l.takeWhile (fun c => !(c == stop))

/-- Join a list of components with a separator character, the model of
sep.join(components) in Python. -/
def joinWithChar (sep : Char) : List (List Char) → List Char
  | [] => []
  | [x] => x
  | x :: y :: xs => x ++ sep :: joinWithChar sep (y :: xs)

/-- Characters stripped by the Python str.rstrip() default whitespace set. -/
def pyIsSpace (c : Char) : Bool :=
  c == ' ' || c == '\t' || c == '\n' || c == '\r' || c == '\x0b' || c == '\x0c'

/-- Model of the Python str.rstrip() with no arguments. -/
def pyRstrip (l : List Char) : List Char :=
  (l.reverse.dropWhile pyIsSpace).reverse

/-- Whether the character list ends with the given suffix, the model of
the Python str.endswith. -/
def listEndsWith (suffix l : List Char) : Bool :=
  suffix.isSuffixOf l

/-- ASCII lower-casing of one character, the behaviour of str.lower on the
ASCII range used by the server-header comparison. -/
def asciiLowerChar (c : Char) : Char :=
  if 65 ≤ c.toNat ∧ c.toNat ≤ 90 then Char.ofNat (c.toNat + 32) else c

/-- Model of the Python str.lower (ASCII range). -/
def asciiLower (s : String) : String :=
  ⟨s.data.map asciiLowerChar⟩

/-- Whether pat occurs as a contiguous sublist of the character list, the
model of the Python substring containment test (pat in s). -/
def hasSubList (pat : List Char) : List Char → Bool
  | [] => pat.isEmpty
  | c :: cs => pat.isPrefixOf (c :: cs) || hasSubList pat cs

/-- Substring containment on strings: strContainsSub hay pat is the model
of the Python expression (pat in hay). -/
def strContainsSub (hay pat : String) : Bool :=
  hasSubList pat.data hay.data

/-- Numeric value of one hexadecimal digit, used by percent-decoding. -/
def hexDigitVal (c : Char) : Option Nat :=
  if '0' ≤ c ∧ c ≤ '9' then some (c.toNat - '0'.toNat)
  else if 'a' ≤ c ∧ c ≤ 'f' then some (c.toNat - 'a'.toNat + 10)
  else if 'A' ≤ c ∧ c ≤ 'F' then some (c.toNat - 'A'.toNat + 10)
  else none

/-- Model of urllib.parse.unquote on the ASCII range: every valid %XX
escape is replaced by the character with that code, malformed escapes are
left alone. -/
def pyUnquoteChars : List Char → List Char
  | [] => []
  | '%' :: h1 :: h2 :: rest =>
    match hexDigitVal h1, hexDigitVal h2 with
    | some v1, some v2 => Char.ofNat (16 * v1 + v2) :: pyUnquoteChars rest
    | _, _ => '%' :: pyUnquoteChars (h1 :: h2 :: rest)
  | c :: rest => c :: pyUnquoteChars rest

/-- Model of posixpath.normpath, translated line by line from the CPython
implementation: collapse empty and "." components, resolve ".." against
preceding components (keeping leading ".." in relative paths and dropping
".." at the root of absolute paths), and preserve the POSIX one-or-two
leading slash distinction. -/
def normpath (s : String) : String :=
  if s = "" then "."
  else
    let cs := s.data
    let initialSlashes : Nat :=
      if ['/'].isPrefixOf cs then
        if ['/', '/'].isPrefixOf cs ∧ ¬ (['/', '/', '/'].isPrefixOf cs) then 2 else 1
      else 0
    let comps := splitOnChar '/' cs
    let newComps := comps.foldl (fun acc comp =>
      if comp = [] ∨ comp = ['.'] then acc
      else if ¬ (comp = ['.', '.']) ∨ (initialSlashes = 0 ∧ acc = [])
              ∨ (acc.getLast? = some ['.', '.']) then acc ++ [comp]
      else acc.dropLast) ([] : List (List Char))
    let joined := joinWithChar '/' newComps
    let res := List.replicate initialSlashes '/' ++ joined
    if res = [] then "." else ⟨res⟩

/-- Model of os.path.basename on POSIX: the part after the final slash. -/
def basename (s : String) : String :=
  ⟨(splitOnChar '/' s.data).getLastD []⟩

/-- Model of os.path.abspath on POSIX for a given current working
directory: join relative paths onto the cwd and normalise. -/
def posixAbspath (cwd p : String) : String :=
  if ['/'].isPrefixOf p.data then normpath p
  else normpath ⟨cwd.data ++ '/' :: p.data⟩

/-! ## Filesystem model

A filesystem maps absolute paths (lists of name components) to nodes; a
node is a regular file with contents, a directory, or a symbolic link to
another absolute path.  Symbolic links are resolved (with fuel, as the OS
bounds link chains) when a path is opened or tested, matching the fact
that the Python os.path tests and open() follow symlinks. -/

inductive FSNode where
  | file (content : String)
  | dir
  | symlink (target : List String)
deriving DecidableEq

/-- A filesystem: absolute component paths to nodes. -/
def FS : Type := List String → Option FSNode

/-- Resolve a path, following a chain of symbolic links at the looked-up
location, bounded by fuel like the OS ELOOP limit.  Returns the final
location together with its node. -/
def fsResolve (fs : FS) : Nat → List String → Option (List String × FSNode)
  | 0, _ => none
  | Nat.succ fuel, p =>
    match fs p with
    | some (FSNode.symlink t) => fsResolve fs fuel t
    | some n => some (p, n)
    | none => none

/-- Symlink-chain fuel: far above the OS limit of 40. -/
def symlinkFuel : Nat := 40

/-- Model of os.path.exists: true when the path resolves to a file or
directory (broken symlinks do not exist). -/
def fsExists (fs : FS) (p : List String) : Bool :=
  (fsResolve fs symlinkFuel p).isSome

/-- Model of os.path.isdir (follows symlinks). -/
def isDir (fs : FS) (p : List String) : Bool :=
  match fsResolve fs symlinkFuel p with
  | some (_, FSNode.dir) => true
  | _ => false

/-- Model of os.path.isfile (follows symlinks). -/
def isFile (fs : FS) (p : List String) : Bool :=
  match fsResolve fs symlinkFuel p with
  | some (_, FSNode.file _) => true
  | _ => false

/-- Model of open(path).read(): the contents of the regular file the path
resolves to, following symlinks; none when opening fails. -/
def readFile (fs : FS) (p : List String) : Option String :=
  match fsResolve fs symlinkFuel p with
  | some (_, FSNode.file c) => some c
  | _ => none

/-- The real filesystem location a path resolves to after following
symbolic links. -/
def realLoc (fs : FS) (p : List String) : Option (List String) :=
  (fsResolve fs symlinkFuel p).map Prod.fst

/-! ## translate_path

Model of the stdlib SimpleHTTPRequestHandler.translate_path, which the
static handler inherits: drop the query and fragment, record whether the
path (right-stripped) ends in a slash, percent-decode, normalise with
posixpath.normpath, then split into words and append to the serving root
every word that is not empty, ".", or ".." (such words are silently
ignored).  The result is the root components followed by the kept words,
paired with the trailing-slash flag. -/
def translate_path (root : List String) (reqPath : String) : List String × Bool :=
  let p0 : List Char := dropAfter '#' (dropAfter '?' reqPath.data)
  let trailing := listEndsWith ['/'] (pyRstrip p0)
  let p1 := pyUnquoteChars p0
  let p2 := (normpath ⟨p1⟩).data
  let words := (splitOnChar '/' p2).filter (fun w => !(w == []))
  let kept := words.filter (fun w => !(w == ['.'] || w == ['.', '.']))
  (root ++ kept.map (fun w => (⟨w⟩ : String)), trailing)

/-! ## Static File Responder: SiteShareHandler and the inherited
SimpleHTTPRequestHandler behaviour -/

/-- Result of handling one GET request in static mode.  ok carries the
status, the body bytes and, for file responses, the real filesystem
location the contents came from after symlink resolution; listing is the
directory listing page produced by list_directory; moved is the 301
redirect to the slash-suffixed form. -/
inductive StaticResult where
  | ok (status : Nat) (body : String) (servedFrom : Option (List String))
  | listing (p : List String)
  | moved (location : String)
  | notFound
deriving DecidableEq

/-- Index files probed by the stdlib send_head for directory requests. -/
def stdIndexList : List String := ["index.html", "index.htm"]

/-- Model of the stdlib SimpleHTTPRequestHandler.send_head / do_GET body:
translate the path, serve directory requests (redirecting when the URL
lacks a trailing slash, preferring index.html / index.htm, otherwise the
generated directory listing), and stream regular files; open failures are
404s.  open() and the os.path tests follow symbolic links. -/
def send_head (fs : FS) (root : List String) (reqPath : String) : StaticResult :=
  let tp := translate_path root reqPath
  let path := tp.1
  if isDir fs path then
    if !(listEndsWith ['/'] (dropAfter '#' (dropAfter '?' reqPath.data))) then
      StaticResult.moved (reqPath ++ "/")
    else
      match stdIndexList.find? (fun f => isFile fs (path ++ [f])) with
      | some f =>
        match readFile fs (path ++ [f]) with
        | some c => StaticResult.ok 200 c (realLoc fs (path ++ [f]))
        | none => StaticResult.notFound
      | none => StaticResult.listing path
  else
    if tp.2 then StaticResult.notFound
    else
      match readFile fs path with
      | some c => StaticResult.ok 200 c (realLoc fs path)
      | none => StaticResult.notFound

/-- The six index files SiteShareHandler.do_GET checks before serving the
welcome page, in source order (share_website.py line 372). -/
def staticIndexList : List String :=
  ["index.html", "index.htm", "index.php", "default.html", "default.htm", "default.php"]

/-- Body of the /siteshare-info.json response in static mode: the Python
str() rendering of the info dict with single quotes replaced by double
quotes (share_website.py lines 357-362).  There is no php_port entry in
static mode. -/
def staticInfoBody (absDir : String) : String :=
  "\x7b\x22directory\x22: \x22" ++ absDir ++
  "\x22, \x22version\x22: \x221.0.0\x22, \x22mode\x22: \x22Static Files\x22\x7d"

/-- Model of SiteShareHandler.do_GET (share_website.py lines 351-401):
the info endpoint is answered first; for the root path, when none of the
six index files exists under the serving root and the welcome.html asset
is present and readable (the welcome argument), the welcome page is
served with status 200; in every other case the inherited
SimpleHTTPRequestHandler behaviour (send_head) runs. -/
def siteshare_do_GET (fs : FS) (root : List String) (absDir : String)
    (welcome : Option String) (reqPath : String) : StaticResult :=
  if reqPath = "/siteshare-info.json" then
    StaticResult.ok 200 (staticInfoBody absDir) none
  else if reqPath = "/" then
    let has_index := staticIndexList.any (fun f => fsExists fs (root ++ [f]))
    if has_index then send_head fs root reqPath
    else
      match welcome with
      | some w => StaticResult.ok 200 w none
      | none => send_head fs root reqPath
  else send_head fs root reqPath

/-! ## Proxy Responder: PHPProxyHandler -/

/-- What the PHP backend does with one forwarded request: a successful
response, an HTTP error (urllib.error.HTTPError with status, reason,
headers and body), or a network-level failure. -/
inductive BackendResult where
  | success (status : Nat) (headers : List (String × String)) (body : String)
  | httpError (code : Nat) (reason : String) (headers : List (String × String)) (body : String)
  | netError (msg : String)

/-- A backend is a function of the forwarded URL, forwarded headers,
forwarded body and method. -/
def BackendFn : Type :=
  String → List (String × String) → Option String → String → BackendResult

/-- An HTTP response sent back to the client by the proxy handler. -/
structure HResponse where
  status : Nat
  headers : List (String × String)
  body : String
deriving DecidableEq

/-- Headers dropped when relaying a backend response or backend error to
the client (share_website.py lines 252 and 299). -/
def relayHeaders (hs : List (String × String)) : List (String × String) :=
  hs.filter (fun kv =>
    !(["transfer-encoding", "connection", "content-encoding"].contains (asciiLower kv.1)))

/-- Index files probed for the root-path remap, in source order
(share_website.py line 201). -/
def proxyIndexOrder : List String :=
  ["index.php", "index.html", "index.htm", "default.php", "default.html", "default.htm"]

/-- Index files probed by the 404-on-root fallback, in source order
(share_website.py line 272). -/
def fallbackIndexOrder : List String :=
  ["index.html", "index.htm", "index.php", "default.html", "default.htm", "default.php"]

/-- Root-path remap (share_website.py lines 199-208): for the root path,
the first existing index file is looked up in the current working
directory; when it is a .php file the request path is rewritten to it,
otherwise the path is left unchanged. -/
def remapRootPath (fs : FS) (cwd : List String) (path : String) : String :=
  if path = "/" then
    match proxyIndexOrder.find? (fun f => fsExists fs (cwd ++ [f])) with
    | some f => if listEndsWith ".php".data f.data then "/" ++ f else path
    | none => path
  else path

/-- Basename of the configured shared directory, used as the URL prefix
on the backend (share_website.py line 212). -/
def base_dir_name (dir : String) : String :=
  basename (normpath dir)

/-- The URL the request is forwarded to (share_website.py line 216), the
f-string http://localhost:{port}/{base_dir_name}{path}. -/
def target_url (port : Nat) (base path : String) : String :=
  "http://localhost:" ++ Nat.repr port ++ "/" ++ base ++ path

/-- Python dict assignment d[k] = v on an association list with unique
keys: update the value in place when the key is present, append
otherwise. -/
def dictSet : List (String × String) → String → String → List (String × String)
  | [], k, v => [(k, v)]
  | kv :: rest, k, v =>
    if kv.1 = k then (k, v) :: rest else kv :: dictSet rest k v

/-- Python dict(pairs): later values win, keys keep their first position. -/
def pyDict (l : List (String × String)) : List (String × String) :=
  l.foldl (fun d kv => dictSet d kv.1 kv.2) []

/-- Value of a key in a header dict. -/
def lookupHeader (d : List (String × String)) (k : String) : Option String :=
  (d.find? (fun kv => kv.1 == k)).map Prod.snd

/-- Headers forwarded to the backend (share_website.py lines 224-229):
the dict of all incoming request headers, with X-Requested-With and
Accept additionally set when the (possibly remapped) path ends in .php.
No header is removed. -/
def forwardHeaders (reqHeaders : List (String × String)) (path : String) :
    List (String × String) :=
  let d := pyDict reqHeaders
  if listEndsWith ".php".data path.data then
    dictSet (dictSet d "X-Requested-With" "XMLHttpRequest")
      "Accept" "text/html,application/xhtml+xml,application/xml"
  else d

/-- Body of the /siteshare-info.json response in proxy mode
(share_website.py lines 188-194): the str() rendering of the info dict
with single quotes replaced by double quotes; php_port is rendered as a
bare integer. -/
def proxyInfoBody (absDir : String) (port : Nat) : String :=
  "\x7b\x22directory\x22: \x22" ++ absDir ++
  "\x22, \x22version\x22: \x221.0.0\x22, \x22mode\x22: \x22PHP Proxy\x22, \x22php_port\x22: " ++
  Nat.repr port ++ "\x7d"

/-- Model of PHPProxyHandler.proxy_request (share_website.py lines
182-311).  The info endpoint is answered first.  Otherwise the root path
is remapped, the target URL and forwarded headers are built, and the
backend is called: a successful response is relayed with
Transfer-Encoding, Connection and Content-Encoding dropped; an HTTP error
of 404 for the (remapped) root path triggers the welcome-page fallback
when no index file exists in the working directory and the welcome.html
asset is present, and is relayed like every other HTTP error otherwise; a
network error produces a 500.  fs and cwd model the process working
directory (run_server changes into the shared directory), cwdStr the same
directory as a string for os.path.abspath, welcome the contents of the
welcome.html asset beside the script when present and readable. -/
def proxy_request (fs : FS) (cwd : List String) (cwdStr : String) (port : Nat)
    (dir : String) (welcome : Option String) (backend : BackendFn)
    (method reqPath : String) (reqHeaders : List (String × String))
    (body : Option String) : HResponse :=
  if reqPath = "/siteshare-info.json" then
    ⟨200, [("Content-type", "application/json")], proxyInfoBody (posixAbspath cwdStr dir) port⟩
  else
    let path := remapRootPath fs cwd reqPath
    let url := target_url port (base_dir_name dir) path
    let hdrs := forwardHeaders reqHeaders path
    match backend url hdrs body method with
    | BackendResult.success st hs b => ⟨st, relayHeaders hs, b⟩
    | BackendResult.httpError code _reason hs b =>
      if code = 404 ∧ path = "/" then
        let has_index := fallbackIndexOrder.any (fun f => fsExists fs (cwd ++ [f]))
        if has_index then ⟨code, relayHeaders hs, b⟩
        else
          match welcome with
          | some w => ⟨200, [("Content-type", "text/html")], w⟩
          | none => ⟨code, relayHeaders hs, b⟩
      else ⟨code, relayHeaders hs, b⟩
    | BackendResult.netError m =>
      ⟨500, [("Content-Type", "text/html;charset=utf-8")], "Proxy Error: " ++ m⟩

/-- Model of the stdlib BaseHTTPRequestHandler method dispatch for
PHPProxyHandler: the class defines exactly do_GET, do_POST and do_HEAD
(share_website.py lines 173-180), so those three method tokens are
proxied and every other method token is answered with the stdlib 501
Unsupported-method error before any handler code runs. -/
inductive DispatchResult where
  | handled (r : HResponse)
  | unsupported (status : Nat)
deriving DecidableEq

/-- One request through the stdlib dispatch into PHPProxyHandler. -/
def handle_one_request (fs : FS) (cwd : List String) (cwdStr : String) (port : Nat)
    (dir : String) (welcome : Option String) (backend : BackendFn)
    (method reqPath : String) (reqHeaders : List (String × String))
    (body : Option String) : DispatchResult :=
  if method = "GET" ∨ method = "POST" ∨ method = "HEAD" then
    DispatchResult.handled
      (proxy_request fs cwd cwdStr port dir welcome backend method reqPath reqHeaders body)
  else DispatchResult.unsupported 501

/-! ## Backend Detector: find_php_server -/

/-- Outcome of probing one candidate port: the TCP connect fails or times
out; the port is open but the HTTP GET raises; or the HTTP GET succeeds
with the given Server header value (the empty string when the header is
missing). -/
inductive ProbeResult where
  | closed
  | openNoServer
  | openServer (server : String)

/-- The fixed candidate port list (share_website.py line 58). -/
def PHP_SERVER_PORTS : List Nat := [80, 8888, 8080, 8000]

/-- Server-header test (share_website.py line 77): the lower-cased header
contains apache, php or nginx. -/
def serverMatches (server : String) : Bool :=
  strContainsSub (asciiLower server) "apache" ||
  strContainsSub (asciiLower server) "php" ||
  strContainsSub (asciiLower server) "nginx"

/-- The detection loop over the candidate list: closed ports and probe
errors are skipped, an open port with a matching Server header is
returned immediately, an open port with a non-matching header is also
skipped. -/
def findLoop (probe : Nat → ProbeResult) : List Nat → Option Nat
  | [] => none
  | p :: rest =>
    match probe p with
    | ProbeResult.openServer s =>
      if serverMatches s then some p else findLoop probe rest
    | _ => findLoop probe rest

/-- Model of find_php_server (share_website.py lines 61-86). -/
def find_php_server (probe : Nat → ProbeResult) : Option Nat :=
  findLoop probe PHP_SERVER_PORTS

/-- Whether one candidate port qualifies, written from the words of the
claim: the port is open and its HTTP response carries a Server header
containing apache, php or nginx case-insensitively. -/
def portQualifies (probe : Nat → ProbeResult) (p : Nat) : Bool :=
  match probe p with
  | ProbeResult.openServer s => serverMatches s
  | _ => false

/-! ## Server mode selection in run_server -/

/-- The two serving modes. -/
inductive ServerMode where
  | staticFiles
  | proxyPHP
deriving DecidableEq

/-- Python truthiness of an optional integer port. -/
def pyTruthyPort : Option Nat → Bool
  | none => false
  | some p => p ≠ 0

/-- Model of the mode determination in run_server (share_website.py lines
449-482): the detector runs only when PHP mode was requested;
final_php_mode is set only when a port was found; the proxy handler is
installed only when final_php_mode holds and the port is truthy, and the
static handler is installed otherwise. -/
def run_server_mode (php_mode : Bool) (probe : Nat → ProbeResult) :
    ServerMode × Option Nat :=
  let php_server_port := if php_mode then find_php_server probe else none
  let final_php_mode := php_mode && pyTruthyPort php_server_port
  if final_php_mode && pyTruthyPort php_server_port then
    (ServerMode.proxyPHP, php_server_port)
  else (ServerMode.staticFiles, php_server_port)

/-! ## Port binding error handling in run_server -/

/-- Classification of a bind failure. -/
inductive BindErrClass where
  | addressInUse
  | permissionDenied
  | otherOS
deriving DecidableEq

/-- Model of the OSError classification in run_server (share_website.py
lines 517 and 542): errno in (errno.EADDRINUSE, 98, 48, 10048) is
address-in-use (the platform EADDRINUSE constant is one of 98, 48 and
10048 on Linux, macOS and Windows), errno in (errno.EACCES, 13) is
permission-denied (EACCES is 13 on these platforms), anything else is an
other OS error. -/
def classify_bind_error (e : Int) : BindErrClass :=
  if e = 98 ∨ e = 48 ∨ e = 10048 then BindErrClass.addressInUse
  else if e = 13 then BindErrClass.permissionDenied
  else BindErrClass.otherOS

/-- Outcome of one iteration of the bind-retry loop. -/
inductive LoopOutcome where
  | running
  | retryWithNewPort (retries : Nat)
  | exitError
deriving DecidableEq

/-- Model of one iteration of the while loop in run_server (share_website.py
lines 494-549): a successful bind serves forever; an address-in-use error
increments the retry counter and prompts for a new port while the budget
allows, exiting otherwise; a permission-denied error exits immediately
with no retry; any other OS error also exits. -/
def bind_attempt_step (max_retries retries : Nat) (bindErrno : Option Int) :
    LoopOutcome :=
  match bindErrno with
  | none => LoopOutcome.running
  | some e =>
    match classify_bind_error e with
    | BindErrClass.addressInUse =>
      if retries + 1 < max_retries then LoopOutcome.retryWithNewPort (retries + 1)
      else LoopOutcome.exitError
    | BindErrClass.permissionDenied => LoopOutcome.exitError
    | BindErrClass.otherOS => LoopOutcome.exitError

/-! ## Concrete fixtures used by witnesses and counterexamples -/

/-- A shared root /share containing a symbolic link to a file outside the
root: /share/link points at /etc/secret. -/
def fsC1 : FS := fun p =>
  if p = ([] : List String) then some FSNode.dir
  else if p = ["share"] then some FSNode.dir
  else if p = ["share", "link"] then some (FSNode.symlink ["etc", "secret"])
  else if p = ["etc"] then some FSNode.dir
  else if p = ["etc", "secret"] then some (FSNode.file "TOPSECRET") else none

/-- A shared root /www/demo containing a single plain file and none of
the six index files. -/
def fsC3 : FS := fun p =>
  if p = ([] : List String) then some FSNode.dir
  else if p = ["www"] then some FSNode.dir
  else if p = ["www", "demo"] then some FSNode.dir
  else if p = ["www", "demo", "notes.txt"] then some (FSNode.file "hello") else none

/-- A shared root /www/demo containing no files at all. -/
def fsEmptyDir : FS := fun p =>
  if p = ([] : List String) then some FSNode.dir
  else if p = ["www"] then some FSNode.dir
  else if p = ["www", "demo"] then some FSNode.dir else none

/-- A shared root /www/demo containing an index.html file. -/
def fsWithIndex : FS := fun p =>
  if p = ([] : List String) then some FSNode.dir
  else if p = ["www"] then some FSNode.dir
  else if p = ["www", "demo"] then some FSNode.dir
  else if p = ["www", "demo", "index.html"] then some (FSNode.file "<h1>hi</h1>") else none

/-- Probe world of the claim C8 example: only port 8080 is open and it
answers with Server: Apache/2.4. -/
def probe8080 : Nat → ProbeResult := fun p =>
  if p = 8080 then ProbeResult.openServer "Apache/2.4" else ProbeResult.closed

/-- Probe world where earlier candidates fail in different ways (port 80
is open but the GET raises, port 8888 answers with a non-matching Server
header) and port 8080 matches. -/
def probeSkip : Nat → ProbeResult := fun p =>
  if p = 80 then ProbeResult.openNoServer
  else if p = 8888 then ProbeResult.openServer "IIS"
  else if p = 8080 then ProbeResult.openServer "PHP/8.1" else ProbeResult.closed

/-- The list of decimal digit characters. -/
def decDigits : List Char := ['0', '1', '2', '3', '4', '5', '6', '7', '8', '9']

/-! ## Helper lemmas -/

theorem translate_path_decomp (root : List String) (p : String) :
    translate_path root p = (root ++ (translate_path [] p).1, (translate_path [] p).2) := rfl

theorem translate_path_slash (root : List String) : translate_path root "/" = (root, true) := by
  rw [translate_path_decomp]
  have h1 : (translate_path [] "/").1 = [] := by decide
  have h2 : (translate_path [] "/").2 = true := by decide
  rw [h1, h2, List.append_nil]

theorem isFile_eq_false_of_fsExists (fs : FS) (p : List String)
    (h : fsExists fs p = false) : isFile fs p = false := by
  unfold fsExists at h
  unfold isFile
  cases hr : fsResolve fs symlinkFuel p with
  | none => simp
  | some v => rw [hr] at h; simp at h

theorem lookupHeader_dictSet_self (d : List (String × String)) (k v : String) :
    lookupHeader (dictSet d k v) k = some v := by
  induction d with
  | nil => simp [dictSet, lookupHeader, List.find?]
  | cons kv rest ih =>
    by_cases h : kv.1 = k
    · simp [dictSet, h, lookupHeader, List.find?]
    · simp only [dictSet, if_neg h, lookupHeader, List.find?]
      have hb : (kv.1 == k) = false := by simpa using h
      rw [hb]
      exact ih

theorem lookupHeader_dictSet_ne (d : List (String × String)) (k v k' : String)
    (h : k' ≠ k) : lookupHeader (dictSet d k v) k' = lookupHeader d k' := by
  induction d with
  | nil =>
    simp only [dictSet, lookupHeader, List.find?]
    have hb : (k == k') = false := by simpa using fun he => h he.symm
    rw [hb]
  | cons kv rest ih =>
    by_cases hk : kv.1 = k
    · have hb : (k == k') = false := by simpa using fun he => h he.symm
      have hb2 : (kv.1 == k') = false := by simpa [hk] using fun he => h he.symm
      simp only [dictSet, if_pos hk, lookupHeader, List.find?, hb, hb2]
    · simp only [dictSet, if_neg hk, lookupHeader, List.find?]
      cases hb : (kv.1 == k') with
      | true => simp [hb]
      | false => simp only [hb]; exact ih

theorem findLoop_eq_find? (probe : Nat → ProbeResult) (l : List Nat) :
    findLoop probe l = l.find? (portQualifies probe) := by
  induction l with
  | nil => rfl
  | cons p rest ih =>
    simp only [findLoop, List.find?, portQualifies]
    cases hp : probe p with
    | closed => simpa using ih
    | openNoServer => simpa using ih
    | openServer s =>
      cases hm : serverMatches s with
      | true => simp [hm]
      | false => simp [hm, ih]

theorem toDigitsCore_digits (fuel n : Nat) (ds : List Char)
    (h : ∀ c ∈ ds, c ∈ decDigits) :
    ∀ c ∈ Nat.toDigitsCore 10 fuel n ds, c ∈ decDigits := by
  induction fuel generalizing n ds with
  | zero => intro c hc; exact h c hc
  | succ fuel ih =>
    intro c hc
    unfold Nat.toDigitsCore at hc
    have hlt : n % 10 < 10 := Nat.mod_lt _ (by norm_num)
    have hd : Nat.digitChar (n % 10) ∈ decDigits := by
      interval_cases h10 : n % 10 <;> decide
    dsimp only at hc
    split at hc
    · rcases List.mem_cons.mp hc with h1 | h1
      · rw [h1]; exact hd
      · exact h c h1
    · refine ih _ (Nat.digitChar (n % 10) :: ds) ?_ c hc
      intro x hx
      rcases List.mem_cons.mp hx with h1 | h1
      · rw [h1]; exact hd
      · exact h x h1

theorem repr_mem_digits (n : Nat) : ∀ c ∈ (Nat.repr n).data, c ∈ decDigits := by
  intro c hc
  have : (Nat.repr n).data = Nat.toDigitsCore 10 (n + 1) n [] := rfl
  rw [this] at hc
  exact toDigitsCore_digits (n + 1) n [] (by intro x hx; cases hx) c hc

/-! ## Claim C1 -/

/-- Claim C1, amended.  Dot-dot traversal cannot escape: for every request
path, the filesystem path computed by translate_path starts with the
configured root components and every appended component is a plain name,
never empty, "." or "..".  (The original claim also covered symlink
resolution; the counterexample below shows symlinks are followed out of
the root, so escape through a symbolic link inside the root is possible
and is served with status 200.) -/
theorem c1_dotdot_confined (root : List String) (reqPath : String) :
    ((translate_path root reqPath).1).take root.length = root
    ∧ ∀ w ∈ ((translate_path root reqPath).1).drop root.length,
        w ≠ "" ∧ w ≠ "." ∧ w ≠ ".." := by
  rw [translate_path_decomp]
  constructor
  · exact List.take_left root _
  · rw [List.drop_left]
    intro w hw
    simp only [translate_path, List.nil_append, List.mem_map] at hw
    obtain ⟨l, hl, hlw⟩ := hw
    have h2 := List.of_mem_filter hl
    have h1 := List.of_mem_filter (List.mem_of_mem_filter hl)
    simp only [Bool.not_eq_true', beq_eq_false_iff_ne, ne_eq, Bool.or_eq_false_iff] at h1 h2
    subst hlw
    refine ⟨?_, ?_, ?_⟩
    · intro he
      exact h1 (congrArg String.data he)
    · intro he
      exact h2.1 (congrArg String.data he)
    · intro he
      exact h2.2 (congrArg String.data he)

/-- Witness for the amended claim C1 at the concrete traversal request
GET /../../etc/passwd against root /share. -/
theorem c1_dotdot_confined_witness :
    ((translate_path ["share"] "/../../etc/passwd").1).take 1 = ["share"]
    ∧ ("etc" ≠ "" ∧ "etc" ≠ "." ∧ "etc" ≠ "..") :=
  ⟨(c1_dotdot_confined ["share"] "/../../etc/passwd").1,
   (c1_dotdot_confined ["share"] "/../../etc/passwd").2 "etc" (by decide)⟩

/-- Counterexample to claim C1 as stated: in the filesystem fsC1 the
request GET /link resolves through the symbolic link /share/link to
/etc/secret, a location outside the root /share, yet the static handler
returns status 200 with the contents of that outside file instead of 403
or 404. -/
theorem c1_symlink_escape_counterexample :
    siteshare_do_GET fsC1 ["share"] "/share" none "/link"
      = StaticResult.ok 200 "TOPSECRET" (some ["etc", "secret"])
    ∧ List.take 1 ["etc", "secret"] ≠ ["share"]
    ∧ fsC1 ["etc", "secret"] = some (FSNode.file "TOPSECRET") := by
  refine ⟨by decide, by decide, by decide⟩

/-! ## Claim C3 -/

/-- Claim C3, amended.  In static mode, for every root directory holding
none of the six index files, GET / returns 200 with the landing-page
document when the welcome.html asset exists and is readable; when the
asset is absent the handler falls through to the inherited static
behaviour, which serves the generated directory listing — there is no
minimal built-in placeholder.  (The counterexample below refutes the
placeholder part of the original claim.) -/
theorem c3_landing_page_amended (fs : FS) (root : List String) (absDir w : String)
    (hNoIdx : staticIndexList.all (fun f => !(fsExists fs (root ++ [f]))) = true)
    (hDir : isDir fs root = true) :
    siteshare_do_GET fs root absDir (some w) "/" = StaticResult.ok 200 w none
    ∧ siteshare_do_GET fs root absDir none "/" = StaticResult.listing root := by
  simp only [staticIndexList, List.all_cons, List.all_nil, Bool.and_eq_true,
    Bool.not_eq_true', and_true] at hNoIdx
  obtain ⟨e1, e2, e3, e4, e5, e6⟩ := hNoIdx
  have hAny : staticIndexList.any (fun f => fsExists fs (root ++ [f])) = false := by
    simp [staticIndexList, e1, e2, e3, e4, e5, e6]
  have hi1 : isFile fs (root ++ ["index.html"]) = false := isFile_eq_false_of_fsExists _ _ e1
  have hi2 : isFile fs (root ++ ["index.htm"]) = false := isFile_eq_false_of_fsExists _ _ e2
  have hsl : listEndsWith ['/'] (dropAfter '#' (dropAfter '?' ("/" : String).data)) = true := by
    decide
  constructor
  · simp [siteshare_do_GET, hAny]
  · simp [siteshare_do_GET, hAny, send_head, translate_path_slash, hDir, stdIndexList,
      hsl, List.find?, hi1, hi2]

/-- Witness for the amended claim C3 at the concrete root /www/demo of
fsC3, which holds a single plain file and no index file. -/
theorem c3_landing_page_amended_witness :
    (staticIndexList.all (fun f => !(fsExists fsC3 (["www", "demo"] ++ [f]))) = true
     ∧ isDir fsC3 ["www", "demo"] = true)
    ∧ siteshare_do_GET fsC3 ["www", "demo"] "/www/demo" (some "WELCOME") "/"
        = StaticResult.ok 200 "WELCOME" none :=
  ⟨⟨by decide, by decide⟩,
   (c3_landing_page_amended fsC3 ["www", "demo"] "/www/demo" "WELCOME"
     (by decide) (by decide)).1⟩

/-- Counterexample to claim C3 as stated: with no index file under the
root and the landing-page asset absent, GET / is answered with the
generated directory listing, not with a minimal built-in placeholder. -/
theorem c3_listing_counterexample :
    siteshare_do_GET fsC3 ["www", "demo"] "/www/demo" none "/"
      = StaticResult.listing ["www", "demo"] := by
  decide

/-! ## Claim C4 -/

/-- Claim C4, amended.  GET /siteshare-info.json is answered first in
both handlers, before any security, redirect or file-resolution logic,
with status 200 and the JSON body; the body carries directory, version
and the mode of the configured handler, but the php_port entry exists
only in proxy mode (where it is an integer) — the static-mode body has no
php_port key.  (The counterexample below refutes the php_port-in-both-
modes part of the original claim.) -/
theorem c4_info_endpoint_amended :
    (∀ (fs : FS) (root : List String) (absDir : String) (welcome : Option String),
      siteshare_do_GET fs root absDir welcome "/siteshare-info.json"
        = StaticResult.ok 200 (staticInfoBody absDir) none)
    ∧ (∀ (fs : FS) (cwd : List String) (cwdStr : String) (port : Nat) (dir : String)
        (welcome : Option String) (backend : BackendFn) (method : String)
        (reqHeaders : List (String × String)) (body : Option String),
      proxy_request fs cwd cwdStr port dir welcome backend method "/siteshare-info.json"
          reqHeaders body
        = ⟨200, [("Content-type", "application/json")],
            proxyInfoBody (posixAbspath cwdStr dir) port⟩)
    ∧ strContainsSub (staticInfoBody "/www/demo") "\x22mode\x22: \x22Static Files\x22" = true
    ∧ strContainsSub (proxyInfoBody "/www/demo" 8888) "\x22mode\x22: \x22PHP Proxy\x22" = true
    ∧ strContainsSub (proxyInfoBody "/www/demo" 8888) "\x22php_port\x22: 8888" = true := by
  refine ⟨?_, ?_, by decide, by decide, by decide⟩
  · intro fs root absDir welcome
    simp [siteshare_do_GET]
  · intro fs cwd cwdStr port dir welcome backend method reqHeaders body
    simp [proxy_request]

/-- Counterexample to claim C4 as stated: the static-mode info body
contains no php_port member at all, although the endpoint does answer
200 with the JSON document. -/
theorem c4_no_php_port_counterexample :
    siteshare_do_GET fsC3 ["www", "demo"] "/www/demo" none "/siteshare-info.json"
      = StaticResult.ok 200 (staticInfoBody "/www/demo") none
    ∧ strContainsSub (staticInfoBody "/www/demo") "php_port" = false := by
  refine ⟨by decide, by decide⟩

/-! ## Claim C2 -/

/-- Claim C2, amended.  In proxy mode, for a request for / whose backend
answers 404: when none of the six index files exists in the shared
directory AND the welcome.html asset is present and readable, the proxy
answers 200 with the landing page; when the asset is absent the backend
404 is relayed instead; when at least one index file exists, the backend
404 is relayed with its status and body, with the headers
Transfer-Encoding, Connection and Content-Encoding removed (not only the
hop-by-hop ones).  (The counterexample below shows the original claim
fails when the landing-page asset is missing.) -/
theorem c2_root_404_fallback_amended (fs : FS) (cwd : List String) (cwdStr : String)
    (port : Nat) (dir w reason : String) (hs : List (String × String)) (b : String)
    (method : String) (reqHeaders : List (String × String)) (body : Option String) :
    (proxyIndexOrder.all (fun f => !(fsExists fs (cwd ++ [f]))) = true →
      proxy_request fs cwd cwdStr port dir (some w)
          (fun _ _ _ _ => BackendResult.httpError 404 reason hs b) method "/" reqHeaders body
        = ⟨200, [("Content-type", "text/html")], w⟩
      ∧ proxy_request fs cwd cwdStr port dir none
          (fun _ _ _ _ => BackendResult.httpError 404 reason hs b) method "/" reqHeaders body
        = ⟨404, relayHeaders hs, b⟩)
    ∧ (proxyIndexOrder.any (fun f => fsExists fs (cwd ++ [f])) = true →
      proxy_request fs cwd cwdStr port dir (some w)
          (fun _ _ _ _ => BackendResult.httpError 404 reason hs b) method "/" reqHeaders body
        = ⟨404, relayHeaders hs, b⟩) := by
  constructor
  · intro hNoIdx
    simp only [proxyIndexOrder, List.all_cons, List.all_nil, Bool.and_eq_true,
      Bool.not_eq_true', and_true] at hNoIdx
    obtain ⟨e1, e2, e3, e4, e5, e6⟩ := hNoIdx
    have hremap : remapRootPath fs cwd "/" = "/" := by
      simp [remapRootPath, proxyIndexOrder, List.find?, e1, e2, e3, e4, e5, e6]
    have hfb : fallbackIndexOrder.any (fun f => fsExists fs (cwd ++ [f])) = false := by
      simp [fallbackIndexOrder, e1, e2, e3, e4, e5, e6]
    constructor
    · simp [proxy_request, hremap, hfb]
    · simp [proxy_request, hremap, hfb]
  · intro hIdx
    cases hfind : proxyIndexOrder.find? (fun f => fsExists fs (cwd ++ [f])) with
    | none =>
      obtain ⟨f, hf, hq⟩ := List.any_eq_true.mp hIdx
      exact absurd hq (by simpa using List.find?_eq_none.mp hfind f hf)
    | some f =>
      have hq0 := List.find?_some hfind
      have hq : fsExists fs (cwd ++ [f]) = true := by simpa using hq0
      have hmem := List.mem_of_find?_eq_some hfind
      simp only [proxyIndexOrder, List.mem_cons, List.not_mem_nil, or_false] at hmem
      rcases hmem with rfl | rfl | rfl | rfl | rfl | rfl
      · simp +decide [proxy_request, remapRootPath, hfind]
      · simp [proxy_request, remapRootPath, hfind, fallbackIndexOrder, hq]
      · simp [proxy_request, remapRootPath, hfind, fallbackIndexOrder, hq]
      · simp +decide [proxy_request, remapRootPath, hfind]
      · simp [proxy_request, remapRootPath, hfind, fallbackIndexOrder, hq]
      · simp [proxy_request, remapRootPath, hfind, fallbackIndexOrder, hq]

/-- Witness for the amended claim C2: the empty shared directory with the
asset present yields the landing page; the shared directory holding
index.html yields the relayed 404. -/
theorem c2_root_404_fallback_amended_witness :
    (proxyIndexOrder.all (fun f => !(fsExists fsEmptyDir (["www", "demo"] ++ [f]))) = true
     ∧ proxy_request fsEmptyDir ["www", "demo"] "/www/demo" 8888 "/www/demo" (some "LANDING")
         (fun _ _ _ _ => BackendResult.httpError 404 "Not Found" [("X-Test", "y")] "nf")
         "GET" "/" [] none
       = ⟨200, [("Content-type", "text/html")], "LANDING"⟩)
    ∧ (proxyIndexOrder.any (fun f => fsExists fsWithIndex (["www", "demo"] ++ [f])) = true
     ∧ proxy_request fsWithIndex ["www", "demo"] "/www/demo" 8888 "/www/demo" (some "LANDING")
         (fun _ _ _ _ => BackendResult.httpError 404 "Not Found" [("X-Test", "y")] "nf")
         "GET" "/" [] none
       = ⟨404, relayHeaders [("X-Test", "y")], "nf"⟩) :=
  ⟨⟨by decide,
    ((c2_root_404_fallback_amended fsEmptyDir ["www", "demo"] "/www/demo" 8888 "/www/demo"
      "LANDING" "Not Found" [("X-Test", "y")] "nf" "GET" [] none).1 (by decide)).1⟩,
   ⟨by decide,
    (c2_root_404_fallback_amended fsWithIndex ["www", "demo"] "/www/demo" 8888 "/www/demo"
      "LANDING" "Not Found" [("X-Test", "y")] "nf" "GET" [] none).2 (by decide)⟩⟩

/-- Counterexample to claim C2 as stated: no index file exists in the
shared directory and the backend answers 404 for /, yet because the
welcome.html asset is absent the proxy relays the 404 instead of
answering 200 with the landing page. -/
theorem c2_missing_asset_counterexample :
    proxy_request fsEmptyDir ["www", "demo"] "/www/demo" 8888 "/www/demo" none
        (fun _ _ _ _ => BackendResult.httpError 404 "Not Found" [("Content-Length", "5")] "nope!")
        "GET" "/" [] none
      = ⟨404, [("Content-Length", "5")], "nope!"⟩
    ∧ fallbackIndexOrder.any (fun f => fsExists fsEmptyDir (["www", "demo"] ++ [f])) = false := by
  refine ⟨by decide, by decide⟩

/-! ## Claim C5 -/

/-- Claim C5.  If PHP mode is requested but the backend detector returns
no port, the server runs in static mode; and whenever the selected mode
is the PHP proxy, the backend port is a defined port.  The mode is fixed
once at startup by run_server_mode, so the invariant holds for the whole
server lifetime. -/
theorem c5_proxy_mode_backend_port (php_mode : Bool) (probe : Nat → ProbeResult) :
    (find_php_server probe = none →
      (run_server_mode php_mode probe).1 = ServerMode.staticFiles)
    ∧ ((run_server_mode php_mode probe).1 = ServerMode.proxyPHP →
      ∃ p, (run_server_mode php_mode probe).2 = some p) := by
  cases php_mode with
  | false => simp [run_server_mode, pyTruthyPort]
  | true =>
    cases h : find_php_server probe with
    | none => simp [run_server_mode, h, pyTruthyPort]
    | some p =>
      by_cases hp : p = 0
      · simp [run_server_mode, h, pyTruthyPort, hp]
      · simp [run_server_mode, h, pyTruthyPort, hp]

/-- Witness for claim C5: with every candidate port closed a requested
PHP mode degrades to static serving; in the probe world of probe8080 the
proxy mode comes with a defined backend port. -/
theorem c5_proxy_mode_backend_port_witness :
    (run_server_mode true (fun _ => ProbeResult.closed)).1 = ServerMode.staticFiles
    ∧ ∃ p, (run_server_mode true probe8080).2 = some p :=
  ⟨(c5_proxy_mode_backend_port true (fun _ => ProbeResult.closed)).1 (by decide),
   (c5_proxy_mode_backend_port true probe8080).2 (by decide)⟩

/-! ## Claim C6 -/

/-- Claim C6, amended.  The headers forwarded to the backend are exactly
the incoming request headers (collected into a dict, so duplicates
collapse) with NO hop-by-hop removal — Transfer-Encoding and Connection
are forwarded too; for requests whose (remapped) path ends in .php the
X-Requested-With header and the HTML-favouring Accept header are
additionally set and every other header is left unchanged.  (The
counterexample below shows the original hop-by-hop-minus claim fails.) -/
theorem c6_forward_headers_amended (reqHeaders : List (String × String)) (path : String) :
    (listEndsWith ".php".data path.data = false →
      forwardHeaders reqHeaders path = pyDict reqHeaders)
    ∧ (listEndsWith ".php".data path.data = true →
      lookupHeader (forwardHeaders reqHeaders path) "X-Requested-With"
          = some "XMLHttpRequest"
      ∧ lookupHeader (forwardHeaders reqHeaders path) "Accept"
          = some "text/html,application/xhtml+xml,application/xml"
      ∧ ∀ k : String, k ≠ "X-Requested-With" → k ≠ "Accept" →
          lookupHeader (forwardHeaders reqHeaders path) k
            = lookupHeader (pyDict reqHeaders) k) := by
  constructor
  · intro h
    simp [forwardHeaders, h]
  · intro h
    simp only [forwardHeaders, h, if_true]
    refine ⟨?_, ?_, ?_⟩
    · rw [lookupHeader_dictSet_ne _ _ _ _ (by decide)]
      exact lookupHeader_dictSet_self _ _ _
    · exact lookupHeader_dictSet_self _ _ _
    · intro k hk1 hk2
      rw [lookupHeader_dictSet_ne _ _ _ _ hk2, lookupHeader_dictSet_ne _ _ _ _ hk1]

/-- Witness for the amended claim C6 at a concrete request. -/
theorem c6_forward_headers_amended_witness :
    forwardHeaders [("Host", "x")] "/a.html" = pyDict [("Host", "x")]
    ∧ lookupHeader (forwardHeaders [("Host", "x")] "/a.php") "X-Requested-With"
        = some "XMLHttpRequest"
    ∧ lookupHeader (forwardHeaders [("Host", "x")] "/a.php") "Host"
        = lookupHeader (pyDict [("Host", "x")]) "Host" :=
  ⟨(c6_forward_headers_amended [("Host", "x")] "/a.html").1 (by decide),
   ((c6_forward_headers_amended [("Host", "x")] "/a.php").2 (by decide)).1,
   ((c6_forward_headers_amended [("Host", "x")] "/a.php").2 (by decide)).2.2 "Host"
     (by decide) (by decide)⟩

/-- Counterexample to claim C6 as stated: for a non-.php request the
incoming Connection and Transfer-Encoding headers are forwarded to the
backend untouched instead of being removed, and a backend that inspects
its received headers observes the Connection header. -/
theorem c6_hop_by_hop_counterexample :
    forwardHeaders [("Connection", "keep-alive"), ("Transfer-Encoding", "chunked")] "/page.html"
      = [("Connection", "keep-alive"), ("Transfer-Encoding", "chunked")]
    ∧ lookupHeader
        (forwardHeaders [("Connection", "keep-alive"), ("Transfer-Encoding", "chunked")]
          "/page.html") "Connection" = some "keep-alive"
    ∧ proxy_request fsEmptyDir ["www", "demo"] "/www/demo" 8888 "/www/demo" none
        (fun _ h _ _ => BackendResult.success
          (if h.any (fun kv => kv.1 == "Connection") then 599 else 200) [] "")
        "GET" "/page.html" [("Connection", "keep-alive")] none
      = ⟨599, [], ""⟩ := by
  refine ⟨by decide, by decide, by decide⟩

/-! ## Claim C7 -/

/-- Claim C7, amended.  No synthetic query parameter is ever appended:
for every request the URL forwarded to the backend is exactly
http://localhost:{port}/{baseDirName}{path} with the (possibly
root-remapped) path carried unchanged, so a .php request without a query
string is forwarded without any query string.  (The counterexample below
shows the claimed ?proxy=1 appending does not exist in the code.) -/
theorem c7_forwarded_url_amended (port : Nat) (base path : String) :
    (target_url port base path
      = "http://localhost:" ++ Nat.repr port ++ "/" ++ base ++ path)
    ∧ ('?' ∉ base.data → '?' ∉ path.data → '?' ∉ (target_url port base path).data)
    ∧ (∀ (fs : FS) (cwd : List String) (cwdStr dir : String) (welcome : Option String)
        (method : String) (reqHeaders : List (String × String)) (body : Option String)
        (reqPath : String), reqPath ≠ "/siteshare-info.json" →
      proxy_request fs cwd cwdStr port dir welcome
          (fun url _ _ _ => BackendResult.success 200 [] url) method reqPath reqHeaders body
        = ⟨200, [], target_url port (base_dir_name dir) (remapRootPath fs cwd reqPath)⟩) := by
  refine ⟨rfl, ?_, ?_⟩
  · intro hb hp hmem
    unfold target_url at hmem
    simp only [String.data_append, List.mem_append] at hmem
    rcases hmem with ((((h | h) | h) | h) | h)
    · exact absurd h (by decide)
    · have := repr_mem_digits port '?' h
      exact absurd this (by decide)
    · exact absurd h (by decide)
    · exact hb h
    · exact hp h
  · intro fs cwd cwdStr dir welcome method reqHeaders body reqPath hne
    simp [proxy_request, hne, relayHeaders]

/-- Witness for the amended claim C7 at the concrete request
GET /test.php with no query string, shared directory /www/demo. -/
theorem c7_forwarded_url_amended_witness :
    '?' ∉ (target_url 8888 "demo" "/test.php").data
    ∧ proxy_request fsEmptyDir ["www", "demo"] "/www/demo" 8888 "/www/demo" none
        (fun url _ _ _ => BackendResult.success 200 [] url) "GET" "/test.php" [] none
      = ⟨200, [], target_url 8888 (base_dir_name "/www/demo")
          (remapRootPath fsEmptyDir ["www", "demo"] "/test.php")⟩ :=
  ⟨(c7_forwarded_url_amended 8888 "demo" "/test.php").2.1 (by decide) (by decide),
   (c7_forwarded_url_amended 8888 "demo" "/test.php").2.2 fsEmptyDir ["www", "demo"]
     "/www/demo" "/www/demo" none "GET" [] none "/test.php" (by decide)⟩

/-- Counterexample to claim C7 as stated: the URL forwarded for the .php
request GET /test.php (no query string) carries no synthetic query
parameter at all — it contains no question mark. -/
theorem c7_no_query_counterexample :
    proxy_request fsEmptyDir ["www", "demo"] "/www/demo" 8888 "/www/demo" none
        (fun url _ _ _ => BackendResult.success 200 [] url) "GET" "/test.php" [] none
      = ⟨200, [], "http://localhost:8888/demo/test.php"⟩
    ∧ strContainsSub "http://localhost:8888/demo/test.php" "?" = false := by
  refine ⟨by decide, by decide⟩

/-! ## Claim C8 -/

/-- Claim C8.  The backend detector probes the candidate ports in the
fixed order 80, 8888, 8080, 8000 and returns the first port that is open
with a Server header containing apache, php or nginx case-insensitively
(the characterisation through List.find? over PHP_SERVER_PORTS); it
returns none when no candidate qualifies, and a connection or protocol
error on one candidate only skips that candidate.  The concrete cases:
only 8080 open with Server Apache/2.4 gives 8080; errors on earlier
candidates are skipped; all candidates closed gives none. -/
theorem c8_backend_detector :
    (∀ probe : Nat → ProbeResult,
      find_php_server probe = PHP_SERVER_PORTS.find? (portQualifies probe))
    ∧ find_php_server probe8080 = some 8080
    ∧ find_php_server probeSkip = some 8080
    ∧ find_php_server (fun _ => ProbeResult.closed) = none := by
  refine ⟨?_, by decide, by decide, by decide⟩
  intro probe
  exact findLoop_eq_find? probe PHP_SERVER_PORTS

/-! ## Claim C9 -/

/-- Claim C9.  A bind failure whose errno is one of the
address-already-in-use codes (the platform EADDRINUSE values 98, 48 and
10048) is classified as address-in-use and retried with a new port while
the retry budget (max_retries = 3) allows; a permission-denied errno (13,
EACCES) is classified as permission-denied and is terminal — the loop
exits immediately and never retries. -/
theorem c9_bind_error_classification :
    (∀ e : Int, classify_bind_error e = BindErrClass.addressInUse
      ↔ (e = 98 ∨ e = 48 ∨ e = 10048))
    ∧ (∀ e : Int, classify_bind_error e = BindErrClass.permissionDenied ↔ e = 13)
    ∧ (∀ retries : Nat, retries + 1 < 3 →
        bind_attempt_step 3 retries (some 98) = LoopOutcome.retryWithNewPort (retries + 1))
    ∧ (∀ (retries : Nat) (e : Int),
        classify_bind_error e = BindErrClass.permissionDenied →
        bind_attempt_step 3 retries (some e) = LoopOutcome.exitError)
    ∧ bind_attempt_step 3 2 (some 98) = LoopOutcome.exitError := by
  refine ⟨?_, ?_, ?_, ?_, by decide⟩
  · intro e
    by_cases h : e = 98 ∨ e = 48 ∨ e = 10048
    · simp [classify_bind_error, h]
    · by_cases h13 : e = 13
      · simp [classify_bind_error, h, h13]
      · simp [classify_bind_error, h, h13]
  · intro e
    by_cases h : e = 98 ∨ e = 48 ∨ e = 10048
    · simp [classify_bind_error, h]
      omega
    · by_cases h13 : e = 13
      · simp [classify_bind_error, h, h13]
      · simp [classify_bind_error, h, h13]
  · intro retries h
    simp [bind_attempt_step, classify_bind_error, h]
  · intro retries e h
    simp [bind_attempt_step, h]

/-- Witness for claim C9 at concrete retry counters and errnos. -/
theorem c9_bind_error_classification_witness :
    (0 + 1 < 3 ∧ bind_attempt_step 3 0 (some 98) = LoopOutcome.retryWithNewPort (0 + 1))
    ∧ (classify_bind_error 13 = BindErrClass.permissionDenied
       ∧ bind_attempt_step 3 0 (some 13) = LoopOutcome.exitError)
    ∧ (classify_bind_error 98 = BindErrClass.addressInUse ↔ ((98 : Int) = 98 ∨ (98 : Int) = 48 ∨ (98 : Int) = 10048)) :=
  ⟨⟨by decide, c9_bind_error_classification.2.2.1 0 (by decide)⟩,
   ⟨by decide, c9_bind_error_classification.2.2.2.1 0 13 (by decide)⟩,
   c9_bind_error_classification.1 98⟩

/-! ## Claim C10 -/

/-- Claim C10.  In proxy mode only the methods GET, POST and HEAD are
proxied (the class defines exactly do_GET, do_POST and do_HEAD); every
other method token is answered by the stdlib dispatch with the 501
Unsupported-method error, and the backend is never contacted — the
result is the constant unsupported 501 for every backend function. -/
theorem c10_method_dispatch (fs : FS) (cwd : List String) (cwdStr : String)
    (port : Nat) (dir : String) (welcome : Option String) (backend : BackendFn)
    (method reqPath : String) (reqHeaders : List (String × String))
    (body : Option String) :
    (¬(method = "GET" ∨ method = "POST" ∨ method = "HEAD") →
      handle_one_request fs cwd cwdStr port dir welcome backend method reqPath reqHeaders body
        = DispatchResult.unsupported 501)
    ∧ ((method = "GET" ∨ method = "POST" ∨ method = "HEAD") →
      handle_one_request fs cwd cwdStr port dir welcome backend method reqPath reqHeaders body
        = DispatchResult.handled
            (proxy_request fs cwd cwdStr port dir welcome backend method reqPath
              reqHeaders body)) := by
  constructor
  · intro h
    simp [handle_one_request, h]
  · intro h
    simp [handle_one_request, h]

/-- Witness for claim C10: a PUT request is answered 501 without the
backend being involved, and a GET request is proxied. -/
theorem c10_method_dispatch_witness :
    handle_one_request fsEmptyDir ["www", "demo"] "/www/demo" 8888 "/www/demo" none
        (fun _ _ _ _ => BackendResult.netError "down") "PUT" "/x" [] none
      = DispatchResult.unsupported 501
    ∧ handle_one_request fsEmptyDir ["www", "demo"] "/www/demo" 8888 "/www/demo" none
        (fun _ _ _ _ => BackendResult.netError "down") "GET" "/x" [] none
      = DispatchResult.handled
          (proxy_request fsEmptyDir ["www", "demo"] "/www/demo" 8888 "/www/demo" none
            (fun _ _ _ _ => BackendResult.netError "down") "GET" "/x" [] none) :=
  ⟨(c10_method_dispatch fsEmptyDir ["www", "demo"] "/www/demo" 8888 "/www/demo" none
      (fun _ _ _ _ => BackendResult.netError "down") "PUT" "/x" [] none).1 (by decide),
   (c10_method_dispatch fsEmptyDir ["www", "demo"] "/www/demo" 8888 "/www/demo" none
      (fun _ _ _ _ => BackendResult.netError "down") "GET" "/x" [] none).2 (Or.inl rfl)⟩

end SiteShare
